import Mathlib

/-!
# Doctor routes (`backend/Routes/doctor.routes.js`)

A shallow embedding of the seven request handlers of the doctor router, run one
at a time on an explicit state made of the Doctor collection and the User
collection.

Conventions of the embedding.

* A JavaScript value that may be `undefined` (a field absent from a request
  body, a query parameter that was not supplied, an unset document path) is an
  `Option`; `none` stands for the absent value.  JSON `null` behaves like the
  absent value in every test the handlers make and is not told apart from it.
* Truthiness follows JavaScript: a string is truthy when it is not empty, a
  number when it is not zero, an array always (the empty array included).
* Numbers are only copied and tested against zero by the handlers; they are
  integers here.
* Every store call is taken to succeed, so the `catch` branch (status 500) of a
  handler is never entered.
-/

namespace MediHome

/-! ## Data model -/

abbrev UserId := Nat

abbrev DoctorId := Nat

inductive Day
  | Monday | Tuesday | Wednesday | Thursday | Friday | Saturday | Sunday
  deriving DecidableEq, Repr

structure Slot where
  startTime : String
  endTime : String
  deriving DecidableEq, Repr

structure DaySlots where
  day : Day
  slots : List Slot
  deriving DecidableEq, Repr

/-- Modelled from the spec: the User schema (`Models/user.model.js`) is not
among the sources.  The attributes are those the handlers read or write, typed
after the spec's data model; `username` is always present, the other profile
attributes may be unset. -/
structure User where
  _id : UserId
  email : String
  username : String
  name : Option String
  specialization : Option String
  hospital : Option String
  location : Option String
  doctorReg : Option String
  consultationFee : Option Int
  isDoctor : Bool
  cimage : Option String
  deriving DecidableEq, Repr

/-- Modelled from the spec: the Doctor schema (`Models/doctor.model.js`) is not
among the sources.  The attributes are those the handlers assign, typed after
the spec's data model (free-text strings, integer experience, numeric fee,
availability as a sequence of day and slots, sequences of free text); any of
them but the two identifiers may be unset. -/
structure Doctor where
  _id : DoctorId
  userId : UserId
  name : Option String
  specialization : Option String
  hospital : Option String
  location : Option String
  experience : Option Int
  consultationFee : Option Int
  availability : Option (List DaySlots)
  bio : Option String
  education : Option (List String)
  certifications : Option (List String)
  languages : Option (List String)
  image : Option String
  deriving DecidableEq, Repr

/-- The object literal handed to `new Doctor({...})`. -/
structure DoctorInit where
  userId : UserId
  name : Option String := none
  specialization : Option String := none
  hospital : Option String := none
  location : Option String := none
  experience : Option Int := none
  consultationFee : Option Int := none
  availability : Option (List DaySlots) := none
  bio : Option String := none
  education : Option (List String) := none
  certifications : Option (List String) := none
  languages : Option (List String) := none
  image : Option String := none
  deriving DecidableEq, Repr

/-- Modelled from the spec: the one schema default the spec's data model
records, "image: URL string, defaulted if absent".  The default value itself is
not stated and is a parameter here. -/
structure Schema where
  imageDefault : String
  deriving DecidableEq, Repr

/-- Modelled from the spec: the two record stores, in insertion order, and the
source `nextId` of Doctor identifiers ("identifier (unique,
system-generated)"). -/
structure State where
  doctors : List Doctor
  users : List User
  nextId : DoctorId
  deriving DecidableEq, Repr

/-! ## JavaScript truthiness and `||` -/

def truthyStr : Option String → Bool
  | some s => s != ""
  | none => false

def truthyNum : Option Int → Bool
  | some n => n != 0
  | none => false

def truthyArr {α : Type} : Option (List α) → Bool
  | some _ => true
  | none => false

/-- The value of `a || b` when `a` may be absent and `b` is a string. -/
def orStr (a : Option String) (b : String) : String :=
  match a with
  | some s => if s != "" then s else b
  | none => b

/-- The value of `a || b` when `a` may be absent and `b` is a number. -/
def orNum (a : Option Int) (b : Int) : Int :=
  match a with
  | some n => if n != 0 then n else b
  | none => b

/-! ## Store operations -/

/-- Replace the first element satisfying `p` by `x`. -/
def replaceFirst {α : Type} (p : α → Bool) (x : α) : List α → List α
  | [] => []
  | y :: ys => if p y then x :: ys else y :: replaceFirst p x ys

/-- Remove the first element satisfying `p`. -/
def removeFirst {α : Type} (p : α → Bool) : List α → List α
  | [] => []
  | y :: ys => if p y then ys else y :: removeFirst p ys

/-- The call `User.findById(id)`. -/
def User.findById (users : List User) (id : UserId) : Option User :=
  users.find? (fun u => u._id == id)

/-- The call `user.save()` on a document that was loaded from the collection. -/
def User.save (users : List User) (u : User) : List User :=
  replaceFirst (fun x => x._id == u._id) u users

/-- The filter object built by the search handler; an absent key is no
condition. -/
structure DoctorQuery where
  specialization : Option String := none
  location : Option String := none
  hospital : Option String := none
  deriving DecidableEq, Repr

/-- One key of a filter object: absent, or equality with the stored value. -/
def matchesKey (cond : Option String) (stored : Option String) : Bool :=
  match cond with
  | none => true
  | some v => stored == some v

def DoctorQuery.matches (q : DoctorQuery) (d : Doctor) : Bool :=
  matchesKey q.specialization d.specialization &&
  matchesKey q.location d.location &&
  matchesKey q.hospital d.hospital

/-- The call `Doctor.find(query)`; `Doctor.find()` is `Doctor.find({})`. -/
def Doctor.find (doctors : List Doctor) (q : DoctorQuery) : List Doctor :=
  doctors.filter q.matches

/-- The call `Doctor.findOne({ userId })`. -/
def Doctor.findOne (doctors : List Doctor) (userId : UserId) : Option Doctor :=
  doctors.find? (fun d => d.userId == userId)

/-- The call `Doctor.findById(id)`. -/
def Doctor.findById (doctors : List Doctor) (id : DoctorId) : Option Doctor :=
  doctors.find? (fun d => d._id == id)

/-- The call `Doctor.findByIdAndDelete(id)`. -/
def Doctor.findByIdAndDelete (doctors : List Doctor) (id : DoctorId) : List Doctor :=
  removeFirst (fun d => d._id == id) doctors

/-- The constructor `new Doctor({...})`: the document gets its identifier and the schema
default of `image`. -/
def Doctor.construct (cfg : Schema) (id : DoctorId) (o : DoctorInit) : Doctor :=
  { _id := id
    userId := o.userId
    name := o.name
    specialization := o.specialization
    hospital := o.hospital
    location := o.location
    experience := o.experience
    consultationFee := o.consultationFee
    availability := o.availability
    bio := o.bio
    education := o.education
    certifications := o.certifications
    languages := o.languages
    image := match o.image with
      | some i => some i
      | none => some cfg.imageDefault }

/-- The call `doctor.save()` on a document made by `new Doctor`. -/
def Doctor.insert (s : State) (d : Doctor) : State :=
  { s with doctors := s.doctors ++ [d], nextId := s.nextId + 1 }

/-- The call `doctor.save()` on a document that was loaded from the collection. -/
def Doctor.save (doctors : List Doctor) (d : Doctor) : List Doctor :=
  replaceFirst (fun x => x._id == d._id) d doctors

/-! ## Responses -/

/-- The `userId` member of a returned Doctor: the stored reference, or what
`populate('userId', 'email')` puts in its place (`null` when the referenced
User is missing). -/
inductive UserRef
  | raw (id : UserId)
  | expanded (u : Option (UserId × String))
  deriving DecidableEq, Repr

/-- A Doctor as it appears in a response body. -/
structure DoctorRep where
  userId : UserRef
  record : Doctor
  deriving DecidableEq, Repr

def rawRep (d : Doctor) : DoctorRep :=
  { userId := .raw d.userId, record := d }

/-- The call `.populate('userId', 'email')`. -/
def populate (users : List User) (d : Doctor) : DoctorRep :=
  { userId := .expanded ((User.findById users d.userId).map (fun u => (u._id, u.email)))
    record := d }

inductive Payload
  | absent
  | one (d : DoctorRep)
  | many (ds : List DoctorRep)
  deriving DecidableEq, Repr

structure Response where
  status : Nat
  success : Bool
  data : Payload := .absent
  message : Option String := none
  error : Option String := none
  deriving DecidableEq, Repr

/-! ## Request inputs -/

/-- The object `req.query` of the search route. -/
structure SearchParams where
  specialization : Option String := none
  location : Option String := none
  hospital : Option String := none
  deriving DecidableEq, Repr

/-- The object `req.body` of the create route. -/
structure CreateBody where
  userId : Option UserId := none
  name : Option String := none
  specialization : Option String := none
  hospital : Option String := none
  location : Option String := none
  experience : Option Int := none
  consultationFee : Option Int := none
  availability : Option (List DaySlots) := none
  bio : Option String := none
  education : Option (List String) := none
  certifications : Option (List String) := none
  languages : Option (List String) := none
  image : Option String := none
  deriving DecidableEq, Repr

/-- The object `req.body` of the update route. -/
structure UpdateBody where
  name : Option String := none
  specialization : Option String := none
  hospital : Option String := none
  location : Option String := none
  experience : Option Int := none
  consultationFee : Option Int := none
  availability : Option (List DaySlots) := none
  bio : Option String := none
  education : Option (List String) := none
  certifications : Option (List String) := none
  languages : Option (List String) := none
  image : Option String := none
  deriving DecidableEq, Repr

/-! ## Handlers -/

/-- Handler of `GET /all`. -/
def getAll (s : State) : Response × State :=
  let doctors := (Doctor.find s.doctors {}).map (populate s.users)
  ({ status := 200, success := true, data := .many doctors }, s)

/-- The filter object of `GET /search`: a key is set when its parameter is
truthy. -/
def buildQuery (p : SearchParams) : DoctorQuery :=
  { specialization := if truthyStr p.specialization then p.specialization else none
    location := if truthyStr p.location then p.location else none
    hospital := if truthyStr p.hospital then p.hospital else none }

/-- Handler of `GET /search`. -/
def getSearch (s : State) (p : SearchParams) : Response × State :=
  let query := buildQuery p
  let doctors := (Doctor.find s.doctors query).map (populate s.users)
  ({ status := 200, success := true, data := .many doctors }, s)

def defaultAvailability : List DaySlots :=
  [ { day := .Monday, slots := [{ startTime := "08:00", endTime := "17:00" }] },
    { day := .Tuesday, slots := [{ startTime := "08:00", endTime := "17:00" }] },
    { day := .Wednesday, slots := [{ startTime := "08:00", endTime := "17:00" }] },
    { day := .Thursday, slots := [{ startTime := "08:00", endTime := "17:00" }] },
    { day := .Friday, slots := [{ startTime := "08:00", endTime := "17:00" }] },
    { day := .Saturday, slots := [{ startTime := "08:00", endTime := "13:00" }] },
    { day := .Sunday, slots := [] } ]

structure RegistrationData where
  name : String
  specialization : String
  hospital : String
  consultationFee : Int
  deriving DecidableEq, Repr

def registrationData (user : User) : RegistrationData :=
  { name := orStr user.name user.username
    specialization := orStr user.specialization
      (match user.doctorReg with
        | some r => if r != "" then "Medical Doctor (" ++ r ++ ")" else "General Practitioner"
        | none => "General Practitioner")
    hospital := orStr user.hospital "General Hospital"
    consultationFee := orNum user.consultationFee 2000 }

/-- The argument of `new Doctor` in the provisioning branch. -/
def provisionInit (user : User) : DoctorInit :=
  let reg := registrationData user
  { userId := user._id
    name := some reg.name
    specialization := some reg.specialization
    hospital := some reg.hospital
    location := some (orStr user.location "Sri Lanka")
    experience := some 1
    consultationFee := some reg.consultationFee
    availability := some defaultAvailability
    bio := some ("Dr. " ++ reg.name ++ " is a " ++ reg.specialization ++
      " specialist at " ++ reg.hospital ++ ".")
    image := some (orStr user.cimage "https://s3.amazonaws.com/images/doctor.png") }

def notFound (msg : String) : Response :=
  { status := 404, success := false, error := some msg }

/-- Handler of `GET /user/:userId`. -/
def getUser (cfg : Schema) (s : State) (userId : UserId) : Response × State :=
  match Doctor.findOne s.doctors userId with
  | some doctor => ({ status := 200, success := true, data := .one (rawRep doctor) }, s)
  | none =>
    match User.findById s.users userId with
    | some user =>
      if user.isDoctor then
        let doctor := Doctor.construct cfg s.nextId (provisionInit user)
        ({ status := 200, success := true, data := .one (rawRep doctor) }, Doctor.insert s doctor)
      else (notFound "Doctor not found", s)
    | none => (notFound "Doctor not found", s)

/-- The argument of `new Doctor` in the create route. -/
def createInit (userId : UserId) (b : CreateBody) : DoctorInit :=
  { userId := userId
    name := b.name
    specialization := b.specialization
    hospital := b.hospital
    location := b.location
    experience := b.experience
    consultationFee := b.consultationFee
    availability := b.availability
    bio := b.bio
    education := b.education
    certifications := b.certifications
    languages := b.languages
    image := b.image }

/-- Handler of `POST /create`.  `User.findById(undefined)` finds nothing. -/
def postCreate (cfg : Schema) (s : State) (b : CreateBody) : Response × State :=
  match b.userId with
  | none => (notFound "User not found", s)
  | some userId =>
    match User.findById s.users userId with
    | none => (notFound "User not found", s)
    | some user =>
      match Doctor.findOne s.doctors userId with
      | some _ =>
        ({ status := 400, success := false, error := some "Doctor profile already exists" }, s)
      | none =>
        let doctor := Doctor.construct cfg s.nextId (createInit userId b)
        let s1 := Doctor.insert s doctor
        let user1 := { user with isDoctor := true }
        let user2 := if truthyStr b.image then { user1 with cimage := b.image } else user1
        ({ status := 201, success := true,
           message := some "Doctor profile created successfully",
           data := .one (rawRep doctor) },
         { s1 with users := User.save s1.users user2 })

/-- Handler of `GET /:id`. -/
def getById (s : State) (id : DoctorId) : Response × State :=
  match Doctor.findById s.doctors id with
  | none => (notFound "Doctor not found", s)
  | some doctor =>
    ({ status := 200, success := true, data := .one (populate s.users doctor) }, s)

/-- The twelve conditional assignments of the update route. -/
def applyUpdate (doctor : Doctor) (b : UpdateBody) : Doctor :=
  { doctor with
    name := if truthyStr b.name then b.name else doctor.name
    specialization := if truthyStr b.specialization then b.specialization else doctor.specialization
    hospital := if truthyStr b.hospital then b.hospital else doctor.hospital
    location := if truthyStr b.location then b.location else doctor.location
    experience := if truthyNum b.experience then b.experience else doctor.experience
    consultationFee :=
      if truthyNum b.consultationFee then b.consultationFee else doctor.consultationFee
    availability := if truthyArr b.availability then b.availability else doctor.availability
    bio := if truthyStr b.bio then b.bio else doctor.bio
    education := if truthyArr b.education then b.education else doctor.education
    certifications :=
      if truthyArr b.certifications then b.certifications else doctor.certifications
    languages := if truthyArr b.languages then b.languages else doctor.languages
    image := if truthyStr b.image then b.image else doctor.image }

/-- Handler of `PUT /:id`. -/
def putById (s : State) (id : DoctorId) (b : UpdateBody) : Response × State :=
  match Doctor.findById s.doctors id with
  | none => (notFound "Doctor not found", s)
  | some doctor =>
    let doctor1 := applyUpdate doctor b
    let users1 :=
      if truthyStr b.image then
        match User.findById s.users doctor1.userId with
        | some user => User.save s.users { user with cimage := b.image }
        | none => s.users
      else s.users
    ({ status := 200, success := true,
       message := some "Doctor profile updated successfully",
       data := .one (rawRep doctor1) },
     { s with doctors := Doctor.save s.doctors doctor1, users := users1 })

/-- Handler of `DELETE /:id`. -/
def deleteById (s : State) (id : DoctorId) : Response × State :=
  match Doctor.findById s.doctors id with
  | none => (notFound "Doctor not found", s)
  | some doctor =>
    let users1 :=
      match User.findById s.users doctor.userId with
      | some user => User.save s.users { user with isDoctor := false }
      | none => s.users
    ({ status := 200, success := true,
       message := some "Doctor profile deleted successfully" },
     { s with doctors := Doctor.findByIdAndDelete s.doctors id, users := users1 })

/-! ## Sequential execution -/

inductive Request
  | getAll
  | getSearch (p : SearchParams)
  | getUser (userId : UserId)
  | postCreate (b : CreateBody)
  | getById (id : DoctorId)
  | putById (id : DoctorId) (b : UpdateBody)
  | deleteById (id : DoctorId)
  deriving DecidableEq, Repr

/-- One request handled atomically. -/
def step (cfg : Schema) (s : State) : Request → Response × State
  | .getAll => getAll s
  | .getSearch p => getSearch s p
  | .getUser userId => getUser cfg s userId
  | .postCreate b => postCreate cfg s b
  | .getById id => getById s id
  | .putById id b => putById s id b
  | .deleteById id => deleteById s id

/-- The state after a sequence of requests. -/
def run (cfg : Schema) (s : State) : List Request → State
  | [] => s
  | r :: rs => run cfg (step cfg s r).2 rs

/-- No two Doctor documents share a `userId`. -/
def UniqueUser (doctors : List Doctor) : Prop :=
  (doctors.map (fun d => d.userId)).Nodup

/-- No two Doctor documents share an identifier. -/
def UniqueId (doctors : List Doctor) : Prop :=
  (doctors.map (fun d => d._id)).Nodup

instance (doctors : List Doctor) : Decidable (UniqueUser doctors) := by
  unfold UniqueUser; infer_instance

instance (doctors : List Doctor) : Decidable (UniqueId doctors) := by
  unfold UniqueId; infer_instance

/-! ## Definitions that follow the specification's wording -/

/-- The weekly template as the specification words it: Monday to Friday one
slot 08:00-17:00 each, Saturday one slot 08:00-13:00, Sunday no slots. -/
def specWeeklyTemplate : List DaySlots :=
  ([Day.Monday, Day.Tuesday, Day.Wednesday, Day.Thursday, Day.Friday].map
      (fun day => { day := day, slots := [{ startTime := "08:00", endTime := "17:00" }] })) ++
    [{ day := Day.Saturday, slots := [{ startTime := "08:00", endTime := "13:00" }] },
     { day := Day.Sunday, slots := [] }]

/-- An optional string is falsy: absent or empty. -/
def FalsyStr (a : Option String) : Prop := a = none ∨ a = some ""

/-- An optional number is falsy: absent or zero. -/
def FalsyNum (a : Option Int) : Prop := a = none ∨ a = some 0

/-- The specification's update rule for one field: the body's value when it is
present and truthy, the previous value otherwise. -/
def KeepsOrTakes {α : Type} (truthy : α → Prop) (body old new : Option α) : Prop :=
  (∀ v, body = some v → truthy v → new = some v) ∧
  ((body = none ∨ ∃ v, body = some v ∧ ¬ truthy v) → new = old)

/-- A search parameter as the specification words it: absent or empty it
imposes nothing, otherwise the stored value must equal it. -/
def suppliedEq (param stored : Option String) : Bool :=
  match param with
  | none => true
  | some v => if v = "" then true else stored == some v

/-- The Doctors that equal the supplied value on every supplied filter. -/
def specFilter (p : SearchParams) (d : Doctor) : Bool :=
  suppliedEq p.specialization d.specialization &&
  suppliedEq p.location d.location &&
  suppliedEq p.hospital d.hospital

/-- The Doctor representations carried by a response. -/
def Payload.reps : Payload → List DoctorRep
  | .absent => []
  | .one d => [d]
  | .many ds => ds

/-- The representation carries `{_id, email}` of the linked User in place of
`userId` (`null` when there is no such User). -/
def IsExpanded (users : List User) (rep : DoctorRep) : Prop :=
  rep.userId = .expanded ((User.findById users rep.record.userId).map (fun u => (u._id, u.email)))

/-- The representation carries the stored `userId` as it is. -/
def IsRaw (rep : DoctorRep) : Prop :=
  rep.userId = .raw rep.record.userId

/-- The specification's "falls back through": the source value when truthy,
else the default. -/
def FallsBackStr (src : Option String) (dflt : String) (out : Option String) : Prop :=
  (∀ v, src = some v → v ≠ "" → out = some v) ∧ (FalsyStr src → out = some dflt)

def FallsBackNum (src : Option Int) (dflt : Int) (out : Option Int) : Prop :=
  (∀ v, src = some v → v ≠ 0 → out = some v) ∧ (FalsyNum src → out = some dflt)

/-- Stored identifiers are pairwise distinct and were all issued already. -/
def WellFormed (s : State) : Prop :=
  UniqueId s.doctors ∧ ∀ i ∈ s.doctors.map (fun d => d._id), i < s.nextId

/-! ## Sample data -/

def sampleSchema : Schema := { imageDefault := "https://example.org/default-doctor.png" }

def sampleUser : User :=
  { _id := 1, email := "perera@example.org", username := "aperera", name := some "A. Perera",
    specialization := none, hospital := none, location := none, doctorReg := some "SLMC-77",
    consultationFee := none, isDoctor := true, cimage := none }

def samplePatient : User :=
  { _id := 2, email := "silva@example.org", username := "nsilva", name := none,
    specialization := none, hospital := none, location := none, doctorReg := none,
    consultationFee := none, isDoctor := false, cimage := some "https://example.org/n.png" }

def sampleDoctor : Doctor :=
  { _id := 7, userId := 1, name := some "A. Perera", specialization := some "Cardiology",
    hospital := some "General Hospital", location := some "Colombo", experience := some 5,
    consultationFee := some 3000, availability := none, bio := none, education := none,
    certifications := none, languages := none, image := some "https://example.org/a.png" }

/-- An update whose `name` and `experience` are falsy. -/
def sampleUpdate : UpdateBody :=
  { name := some "", experience := some 0, bio := some "New bio", languages := some [] }

/-- Users only, no Doctor yet. -/
def sampleEmpty : State :=
  { doctors := [], users := [sampleUser, samplePatient], nextId := 0 }

/-- One Doctor linked to `sampleUser`. -/
def sampleLinked : State :=
  { doctors := [sampleDoctor], users := [sampleUser, samplePatient], nextId := 8 }

/-- One Doctor whose User is gone. -/
def sampleOrphan : State :=
  { doctors := [sampleDoctor], users := [samplePatient], nextId := 8 }

/-- Requests that try to make a second Doctor for user 1 and one for user 2. -/
def sampleRequests : List Request :=
  [.getUser 1, .postCreate { userId := some 1, name := some "Again" }, .getUser 1,
   .postCreate { userId := some 2, name := some "N. Silva" }, .deleteById 0, .getUser 1]

/-! ## Lemmas on the store operations -/

theorem replaceFirst_length {α : Type} (p : α → Bool) (x : α) (l : List α) :
    (replaceFirst p x l).length = l.length := by
  induction l with
  | nil => rfl
  | cons y ys ih =>
    unfold replaceFirst
    by_cases h : p y = true
    · simp [h]
    · simp [h, ih]

theorem replaceFirst_found_self {α : Type} (p : α → Bool) (x : α) (l : List α)
    (h : l.find? p = some x) : replaceFirst p x l = l := by
  induction l with
  | nil => rfl
  | cons y ys ih =>
    unfold replaceFirst
    by_cases hy : p y = true
    · simp [List.find?, hy] at h
      subst h
      simp [hy]
    · simp [List.find?, hy] at h
      simp [hy, ih h]

theorem find?_replaceFirst_same {α : Type} (p : α → Bool) (x y : α) (l : List α)
    (h : l.find? p = some y) (hx : p x = true) :
    (replaceFirst p x l).find? p = some x := by
  induction l with
  | nil => simp at h
  | cons z zs ih =>
    unfold replaceFirst
    by_cases hz : p z = true
    · simp [hz, List.find?, hx]
    · simp [List.find?, hz] at h
      simp [hz, List.find?, ih h]

theorem find?_replaceFirst_other {α : Type} (p q : α → Bool) (x : α) (l : List α)
    (hpq : ∀ y, p y = true → q y = false) (hx : q x = false) :
    (replaceFirst p x l).find? q = l.find? q := by
  induction l with
  | nil => rfl
  | cons z zs ih =>
    unfold replaceFirst
    by_cases hz : p z = true
    · simp [hz, List.find?, hx, hpq z hz]
    · by_cases hq : q z = true
      · simp [hz, List.find?, hq]
      · simp [hz, List.find?, hq, ih]

theorem map_replaceFirst {α β : Type} (p : α → Bool) (f : α → β) (x y : α) (l : List α)
    (h : l.find? p = some y) (hf : f x = f y) :
    (replaceFirst p x l).map f = l.map f := by
  induction l with
  | nil => rfl
  | cons z zs ih =>
    unfold replaceFirst
    by_cases hz : p z = true
    · simp [List.find?, hz] at h
      subst h
      simp [hz, hf]
    · simp [List.find?, hz] at h
      simp [hz, ih h]

theorem removeFirst_sublist {α : Type} (p : α → Bool) (l : List α) :
    List.Sublist (removeFirst p l) l := by
  induction l with
  | nil => exact List.Sublist.refl _
  | cons y ys ih =>
    unfold removeFirst
    by_cases hy : p y = true
    · simp [hy]
    · simp [hy, ih]

theorem find?_removeFirst_other {α : Type} (p q : α → Bool) (l : List α)
    (hpq : ∀ y, p y = true → q y = false) :
    (removeFirst p l).find? q = l.find? q := by
  induction l with
  | nil => rfl
  | cons z zs ih =>
    unfold removeFirst
    by_cases hz : p z = true
    · simp [hz, List.find?, hpq z hz]
    · by_cases hq : q z = true
      · simp [hz, List.find?, hq]
      · simp [hz, List.find?, hq, ih]

theorem removeFirst_key_gone (id : DoctorId) (l : List Doctor) (hu : UniqueId l) :
    ∀ x ∈ removeFirst (fun d => d._id == id) l, x._id ≠ id := by
  induction l with
  | nil => intro x hx; simp [removeFirst] at hx
  | cons y ys ih =>
    unfold removeFirst
    unfold UniqueId at hu
    simp only [List.map_cons, List.nodup_cons, List.mem_map, not_exists, not_and] at hu
    by_cases hy : y._id = id
    · intro x hx
      simp [hy] at hx
      intro hxy
      exact hu.1 x hx (hxy.trans hy.symm)
    · intro x hx
      simp [hy] at hx
      rcases hx with hx | hx
      · rw [hx]; exact hy
      · exact ih hu.2 x hx

theorem userFound_id (users : List User) (id : UserId) (u : User)
    (h : User.findById users id = some u) : u._id = id := by
  unfold User.findById at h
  have := List.find?_some h
  simpa using this

theorem doctorFound_id (doctors : List Doctor) (id : DoctorId) (d : Doctor)
    (h : Doctor.findById doctors id = some d) : d._id = id := by
  unfold Doctor.findById at h
  have := List.find?_some h
  simpa using this

theorem Doctor.findOne_userId (doctors : List Doctor) (uid : UserId) (d : Doctor)
    (h : Doctor.findOne doctors uid = some d) : d.userId = uid := by
  unfold Doctor.findOne at h
  have := List.find?_some h
  simpa using this

theorem Doctor.findOne_append_new (doctors : List Doctor) (uid : UserId) (d : Doctor)
    (hno : Doctor.findOne doctors uid = none) (hd : d.userId = uid) :
    Doctor.findOne (doctors ++ [d]) uid = some d := by
  unfold Doctor.findOne at *
  rw [List.find?_append, hno]
  simp [List.find?, hd]

theorem Doctor.findOne_none_iff (doctors : List Doctor) (uid : UserId) :
    Doctor.findOne doctors uid = none ↔ uid ∉ doctors.map (fun d => d.userId) := by
  unfold Doctor.findOne
  simp only [List.find?_eq_none, List.mem_map, not_exists, not_and]
  constructor
  · intro h x hx hxu
    have := h x hx
    simp [hxu] at this
  · intro h x hx
    have := h x hx
    simpa using this

/-- After `user.save()` the saved document is the one found under its id, and
every other id resolves as before. -/
theorem User.save_lookup (users : List User) (id : UserId) (u u1 : User)
    (h : User.findById users id = some u) (hid : u1._id = u._id) :
    User.findById (User.save users u1) id = some u1 ∧
    ∀ v, v ≠ id → User.findById (User.save users u1) v = User.findById users v := by
  have hu : u._id = id := userFound_id _ _ _ h
  have h1 : u1._id = id := hid.trans hu
  unfold User.findById User.save at *
  rw [h1]
  constructor
  · exact find?_replaceFirst_same _ u1 u users h (by simp [h1])
  · intro v hv
    apply find?_replaceFirst_other
    · intro y hy
      simp at hy
      simp [hy]
      exact fun a => hv a.symm
    · simp [h1]
      exact fun a => hv a.symm

theorem fallsBackStr_orStr (a : Option String) (b : String) :
    FallsBackStr a b (some (orStr a b)) := by
  unfold FallsBackStr FalsyStr orStr
  constructor
  · intro v hv hne
    subst hv
    simp [hne]
  · intro h
    rcases h with h | h <;> subst h <;> simp

theorem fallsBackNum_orNum (a : Option Int) (b : Int) :
    FallsBackNum a b (some (orNum a b)) := by
  unfold FallsBackNum FalsyNum orNum
  constructor
  · intro v hv hne
    subst hv
    simp [hne]
  · intro h
    rcases h with h | h <;> subst h <;> simp

/-! ## Fetch-or-provision -/

theorem specWeeklyTemplate_eq : defaultAvailability = specWeeklyTemplate := by
  decide

/-- C1. With a User `u` found under `userId`, flagged as a doctor, and no Doctor
for that `userId`: the first `GET /user/:userId` answers 200 and appends exactly
one Doctor `d` to the collection, with `d.userId` the user's id and the fixed
weekly template as availability; a second call on the resulting state answers
200 with the same record and changes nothing. -/
theorem getUser_provisions_once (cfg : Schema) (s : State) (userId : UserId) (u : User)
    (hu : User.findById s.users userId = some u) (hdoc : u.isDoctor = true)
    (hno : Doctor.findOne s.doctors userId = none) :
    ∃ d : Doctor,
      (getUser cfg s userId).1.status = 200 ∧
      (getUser cfg s userId).1.data = .one (rawRep d) ∧
      (getUser cfg s userId).2.doctors = s.doctors ++ [d] ∧
      (getUser cfg s userId).2.users = s.users ∧
      d.userId = u._id ∧ u._id = userId ∧
      d.availability = some specWeeklyTemplate ∧
      (getUser cfg (getUser cfg s userId).2 userId).1.status = 200 ∧
      (getUser cfg (getUser cfg s userId).2 userId).1.data = .one (rawRep d) ∧
      (getUser cfg (getUser cfg s userId).2 userId).2 = (getUser cfg s userId).2 := by
  have hid : u._id = userId := userFound_id _ _ _ hu
  have h1 : getUser cfg s userId =
      ({ status := 200, success := true,
         data := .one (rawRep (Doctor.construct cfg s.nextId (provisionInit u))) },
       Doctor.insert s (Doctor.construct cfg s.nextId (provisionInit u))) := by
    simp [getUser, hno, hu, hdoc]
  have hfind : Doctor.findOne
      (Doctor.insert s (Doctor.construct cfg s.nextId (provisionInit u))).doctors userId =
      some (Doctor.construct cfg s.nextId (provisionInit u)) := by
    apply Doctor.findOne_append_new _ _ _ hno
    simp [Doctor.construct, provisionInit, hid]
  have h2 : getUser cfg (Doctor.insert s (Doctor.construct cfg s.nextId (provisionInit u)))
      userId =
      ({ status := 200, success := true,
         data := .one (rawRep (Doctor.construct cfg s.nextId (provisionInit u))) },
       Doctor.insert s (Doctor.construct cfg s.nextId (provisionInit u))) := by
    simp only [getUser, hfind]
  refine ⟨Doctor.construct cfg s.nextId (provisionInit u), ?_⟩
  rw [h1]
  dsimp only
  rw [h2]
  refine ⟨rfl, rfl, rfl, rfl, ?_, hid, ?_, rfl, rfl, rfl⟩
  · simp [Doctor.construct, provisionInit]
  · simp [Doctor.construct, provisionInit, specWeeklyTemplate_eq]

theorem getUser_provisions_once_witness :
    User.findById sampleEmpty.users 1 = some sampleUser ∧
    Doctor.findOne sampleEmpty.doctors 1 = none ∧
    ∃ d : Doctor,
      (getUser sampleSchema sampleEmpty 1).1.status = 200 ∧
      (getUser sampleSchema sampleEmpty 1).1.data = .one (rawRep d) ∧
      (getUser sampleSchema sampleEmpty 1).2.doctors = sampleEmpty.doctors ++ [d] ∧
      (getUser sampleSchema sampleEmpty 1).2.users = sampleEmpty.users ∧
      d.userId = sampleUser._id ∧ sampleUser._id = 1 ∧
      d.availability = some specWeeklyTemplate ∧
      (getUser sampleSchema (getUser sampleSchema sampleEmpty 1).2 1).1.status = 200 ∧
      (getUser sampleSchema (getUser sampleSchema sampleEmpty 1).2 1).1.data = .one (rawRep d) ∧
      (getUser sampleSchema (getUser sampleSchema sampleEmpty 1).2 1).2 =
        (getUser sampleSchema sampleEmpty 1).2 :=
  ⟨rfl, rfl, getUser_provisions_once sampleSchema sampleEmpty 1 sampleUser rfl rfl rfl⟩

/-- C6. When `GET /user/:userId` synthesizes a Doctor `d` from the User `u`:
name falls back from `u.name` to `u.username`; specialization from
`u.specialization` to "Medical Doctor (<doctorReg>)" when `doctorReg` is
truthy, else "General Practitioner"; hospital to "General Hospital"; location
to "Sri Lanka"; experience is 1; consultationFee falls back to 2000; image from
`u.cimage` to the placeholder URL; and bio is "Dr. <name> is a
<specialization> specialist at <hospital>." over the values stored in `d`. -/
theorem getUser_provision_defaults (cfg : Schema) (s : State) (userId : UserId) (u : User)
    (hu : User.findById s.users userId = some u) (hdoc : u.isDoctor = true)
    (hno : Doctor.findOne s.doctors userId = none) :
    ∃ d : Doctor,
      (getUser cfg s userId).2.doctors = s.doctors ++ [d] ∧
      (getUser cfg s userId).1.data = .one (rawRep d) ∧
      FallsBackStr u.name u.username d.name ∧
      (∃ dflt : String,
        FallsBackStr u.specialization dflt d.specialization ∧
        (∀ r, u.doctorReg = some r → r ≠ "" → dflt = "Medical Doctor (" ++ r ++ ")") ∧
        (FalsyStr u.doctorReg → dflt = "General Practitioner")) ∧
      FallsBackStr u.hospital "General Hospital" d.hospital ∧
      FallsBackStr u.location "Sri Lanka" d.location ∧
      d.experience = some 1 ∧
      FallsBackNum u.consultationFee 2000 d.consultationFee ∧
      FallsBackStr u.cimage "https://s3.amazonaws.com/images/doctor.png" d.image ∧
      (∃ n sp h : String,
        d.name = some n ∧ d.specialization = some sp ∧ d.hospital = some h ∧
        d.bio = some ("Dr. " ++ n ++ " is a " ++ sp ++ " specialist at " ++ h ++ ".")) := by
  have h1 : getUser cfg s userId =
      ({ status := 200, success := true,
         data := .one (rawRep (Doctor.construct cfg s.nextId (provisionInit u))) },
       Doctor.insert s (Doctor.construct cfg s.nextId (provisionInit u))) := by
    simp [getUser, hno, hu, hdoc]
  refine ⟨Doctor.construct cfg s.nextId (provisionInit u), ?_⟩
  rw [h1]
  refine ⟨rfl, rfl, fallsBackStr_orStr _ _, ⟨_, fallsBackStr_orStr _ _, ?_, ?_⟩,
    fallsBackStr_orStr _ _, fallsBackStr_orStr _ _, rfl, fallsBackNum_orNum _ _,
    fallsBackStr_orStr _ _, ⟨_, _, _, rfl, rfl, rfl, rfl⟩⟩
  · intro r hr hne
    simp [hr, hne]
  · intro h
    rcases h with h | h <;> simp [h]

theorem getUser_provision_defaults_witness :
    User.findById sampleEmpty.users 1 = some sampleUser ∧
    ∃ d : Doctor,
      (getUser sampleSchema sampleEmpty 1).2.doctors = sampleEmpty.doctors ++ [d] ∧
      d.name = some "A. Perera" ∧
      d.specialization = some "Medical Doctor (SLMC-77)" ∧
      d.hospital = some "General Hospital" ∧
      d.consultationFee = some 2000 ∧
      d.bio = some
        "Dr. A. Perera is a Medical Doctor (SLMC-77) specialist at General Hospital." := by
  refine ⟨rfl, ?_⟩
  obtain ⟨d, hd, -, hname, ⟨dflt, hsp, hreg, -⟩, hhosp, -, -, hfee, -, n, sp, h, hn, hs, hh, hbio⟩ :=
    getUser_provision_defaults sampleSchema sampleEmpty 1 sampleUser rfl rfl rfl
  have e1 : d.name = some "A. Perera" := hname.1 "A. Perera" rfl (by decide)
  have e2 : dflt = "Medical Doctor (SLMC-77)" := hreg "SLMC-77" rfl (by decide)
  have e3 : d.specialization = some "Medical Doctor (SLMC-77)" := by
    rw [← e2]; exact hsp.2 (Or.inl rfl)
  have e4 : d.hospital = some "General Hospital" := hhosp.2 (Or.inl rfl)
  have e5 : d.consultationFee = some 2000 := hfee.2 (Or.inl rfl)
  refine ⟨d, hd, e1, e3, e4, e5, ?_⟩
  rw [e1] at hn
  rw [e3] at hs
  rw [e4] at hh
  cases hn
  cases hs
  cases hh
  exact hbio

/-- C7. With no Doctor for `userId`, `GET /user/:userId` answers 404 exactly
when no User has that id or the User found has `isDoctor` false; the 404 answer
has `success` false and leaves both collections as they were. -/
theorem getUser_notFound_iff (cfg : Schema) (s : State) (userId : UserId)
    (hno : Doctor.findOne s.doctors userId = none) :
    ((getUser cfg s userId).1.status = 404 ↔
      (User.findById s.users userId = none ∨
        ∃ u, User.findById s.users userId = some u ∧ u.isDoctor = false)) ∧
    ((getUser cfg s userId).1.status = 404 →
      (getUser cfg s userId).1.success = false ∧ (getUser cfg s userId).2 = s) := by
  cases hu : User.findById s.users userId with
  | none => simp [getUser, hno, hu, notFound]
  | some u =>
    cases hdoc : u.isDoctor with
    | false => simp [getUser, hno, hu, hdoc, notFound]
    | true => simp [getUser, hno, hu, hdoc, notFound]

theorem getUser_notFound_iff_witness :
    Doctor.findOne sampleEmpty.doctors 2 = none ∧
    (getUser sampleSchema sampleEmpty 2).1.status = 404 ∧
    (getUser sampleSchema sampleEmpty 2).1.success = false ∧
    (getUser sampleSchema sampleEmpty 2).2 = sampleEmpty :=
  have h := getUser_notFound_iff sampleSchema sampleEmpty 2 rfl
  have h404 : (getUser sampleSchema sampleEmpty 2).1.status = 404 :=
    h.1.mpr (Or.inr ⟨samplePatient, rfl, rfl⟩)
  ⟨rfl, h404, h.2 h404⟩

/-- C9, as the claim states it, fails: on a state where the Doctor for user 1
exists, `GET /user/1` does not return an expanded `userId`. -/
theorem getUser_found_expanded_counterexample :
    ¬ (∀ (cfg : Schema) (s : State) (userId : UserId) (d : Doctor),
        Doctor.findOne s.doctors userId = some d →
        ∃ rep, (getUser cfg s userId).1.data = .one rep ∧ IsExpanded s.users rep) := by
  intro h
  obtain ⟨rep, hrep, hexp⟩ := h sampleSchema sampleLinked 1 sampleDoctor rfl
  have hdata : (getUser sampleSchema sampleLinked 1).1.data = .one (rawRep sampleDoctor) := rfl
  rw [hdata] at hrep
  cases hrep
  simp [IsExpanded, rawRep] at hexp

/-- C9 (amended). When a Doctor `d` exists for `userId`, `GET /user/:userId`
answers 200 with `d` carrying its stored, unexpanded `userId`, and changes
nothing; every representation returned by `GET /user/:userId`, `POST /create`
and `PUT /:id` is unexpanded, and every representation returned by `GET /all`,
`GET /search` and `GET /:id` has `userId` expanded into `{_id, email}` of the
linked User. -/
theorem getUser_found_raw (cfg : Schema) (s : State) (userId : UserId) (d : Doctor)
    (hd : Doctor.findOne s.doctors userId = some d) :
    (getUser cfg s userId).1.status = 200 ∧
    (getUser cfg s userId).1.data = .one { userId := .raw d.userId, record := d } ∧
    (getUser cfg s userId).2 = s ∧
    (∀ (t : State) (v : UserId), ∀ rep ∈ (getUser cfg t v).1.data.reps, IsRaw rep) ∧
    (∀ (t : State) (b : CreateBody), ∀ rep ∈ (postCreate cfg t b).1.data.reps, IsRaw rep) ∧
    (∀ (t : State) (id : DoctorId) (b : UpdateBody),
      ∀ rep ∈ (putById t id b).1.data.reps, IsRaw rep) ∧
    (∀ t : State, ∀ rep ∈ (getAll t).1.data.reps, IsExpanded t.users rep) ∧
    (∀ (t : State) (p : SearchParams),
      ∀ rep ∈ (getSearch t p).1.data.reps, IsExpanded t.users rep) ∧
    (∀ (t : State) (id : DoctorId),
      ∀ rep ∈ (getById t id).1.data.reps, IsExpanded t.users rep) := by
  refine ⟨?_, ?_, ?_, ?_, ?_, ?_, ?_, ?_, ?_⟩
  · simp [getUser, hd]
  · simp [getUser, hd, rawRep]
  · simp [getUser, hd]
  · intro t v rep hrep
    unfold getUser at hrep
    cases h1 : Doctor.findOne t.doctors v with
    | some d1 =>
      simp [h1, Payload.reps] at hrep
      simp [hrep, IsRaw, rawRep]
    | none =>
      cases h2 : User.findById t.users v with
      | none => simp [h1, h2, notFound, Payload.reps] at hrep
      | some u =>
        cases h3 : u.isDoctor with
        | false => simp [h1, h2, h3, notFound, Payload.reps] at hrep
        | true =>
          simp [h1, h2, h3, Payload.reps] at hrep
          simp [hrep, IsRaw, rawRep]
  · intro t b rep hrep
    unfold postCreate at hrep
    cases h0 : b.userId with
    | none => simp [h0, notFound, Payload.reps] at hrep
    | some uid =>
      cases h1 : User.findById t.users uid with
      | none => simp [h0, h1, notFound, Payload.reps] at hrep
      | some u =>
        cases h2 : Doctor.findOne t.doctors uid with
        | some d1 => simp [h0, h1, h2, Payload.reps] at hrep
        | none =>
          simp [h0, h1, h2, Payload.reps] at hrep
          simp [hrep, IsRaw, rawRep]
  · intro t id b rep hrep
    unfold putById at hrep
    cases h1 : Doctor.findById t.doctors id with
    | none => simp [h1, notFound, Payload.reps] at hrep
    | some d1 =>
      simp [h1, Payload.reps] at hrep
      simp [hrep, IsRaw, rawRep]
  · intro t rep hrep
    simp [getAll, Payload.reps] at hrep
    obtain ⟨d1, -, rfl⟩ := hrep
    simp [IsExpanded, populate]
  · intro t p rep hrep
    simp [getSearch, Payload.reps] at hrep
    obtain ⟨d1, -, rfl⟩ := hrep
    simp [IsExpanded, populate]
  · intro t id rep hrep
    unfold getById at hrep
    cases h1 : Doctor.findById t.doctors id with
    | none => simp [h1, notFound, Payload.reps] at hrep
    | some d1 =>
      simp [h1, Payload.reps] at hrep
      simp [hrep, IsExpanded, populate]

theorem getUser_found_raw_witness :
    Doctor.findOne sampleLinked.doctors 1 = some sampleDoctor ∧
    (getUser sampleSchema sampleLinked 1).1.data =
      .one { userId := .raw 1, record := sampleDoctor } ∧
    (getById sampleLinked 7).1.data =
      .one { userId := .expanded (some (1, "perera@example.org")), record := sampleDoctor } :=
  ⟨rfl, (getUser_found_raw sampleSchema sampleLinked 1 sampleDoctor rfl).2.1, rfl⟩

/-! ## Create -/

/-- C2, as the claim states it, fails: a Doctor exists for user 1 but the User
itself is gone, and `POST /create` answers 404, not 400. -/
theorem postCreate_conflict_counterexample :
    ¬ (∀ (cfg : Schema) (s : State) (b : CreateBody) (userId : UserId) (d : Doctor),
        b.userId = some userId → Doctor.findOne s.doctors userId = some d →
        (postCreate cfg s b).1.status = 400) := by
  intro h
  have h400 := h sampleSchema sampleOrphan { userId := some 1 } 1 sampleDoctor rfl rfl
  have h404 : (postCreate sampleSchema sampleOrphan { userId := some 1 }).1.status = 404 := rfl
  rw [h404] at h400
  exact absurd h400 (by decide)

/-- C2 (amended). When the body's `userId` already has a Doctor, `POST /create`
fails with `success` false and leaves the whole state as it was; the status is
400 when the User with that id exists and 404 when it does not (the User is
looked up first). -/
theorem postCreate_existing_doctor (cfg : Schema) (s : State) (b : CreateBody)
    (userId : UserId) (d : Doctor)
    (hb : b.userId = some userId) (hd : Doctor.findOne s.doctors userId = some d) :
    (postCreate cfg s b).1.success = false ∧
    (postCreate cfg s b).2 = s ∧
    ((∃ u, User.findById s.users userId = some u) → (postCreate cfg s b).1.status = 400) ∧
    (User.findById s.users userId = none → (postCreate cfg s b).1.status = 404) := by
  cases hu : User.findById s.users userId with
  | none => simp [postCreate, hb, hu, notFound]
  | some u => simp [postCreate, hb, hu, hd]

theorem postCreate_existing_doctor_witness :
    Doctor.findOne sampleLinked.doctors 1 = some sampleDoctor ∧
    (postCreate sampleSchema sampleLinked { userId := some 1, name := some "B" }).1.status = 400 ∧
    (postCreate sampleSchema sampleLinked { userId := some 1, name := some "B" }).2 =
      sampleLinked :=
  have h := postCreate_existing_doctor sampleSchema sampleLinked
    { userId := some 1, name := some "B" } 1 sampleDoctor rfl rfl
  ⟨rfl, h.2.2.1 ⟨sampleUser, rfl⟩, h.2.1⟩

/-- C8. With the User `u` found under the body's `userId` and no Doctor for
that `userId`, `POST /create` answers 201 with the new Doctor `d`, which is
appended to the collection (nothing else in it changes) and carries the body's
`userId` and profile fields (`image` being the schema default when the body
has none); afterwards the User is `u` with `isDoctor` true and with `cimage`
the body's image when that is truthy, its old `cimage` otherwise; every other
user id resolves as before. -/
theorem postCreate_success (cfg : Schema) (s : State) (b : CreateBody) (userId : UserId)
    (u : User) (hb : b.userId = some userId)
    (hu : User.findById s.users userId = some u)
    (hno : Doctor.findOne s.doctors userId = none) :
    ∃ d : Doctor,
      (postCreate cfg s b).1.status = 201 ∧
      (postCreate cfg s b).1.success = true ∧
      (postCreate cfg s b).1.data = .one (rawRep d) ∧
      (postCreate cfg s b).2.doctors = s.doctors ++ [d] ∧
      d.userId = userId ∧
      d.name = b.name ∧ d.specialization = b.specialization ∧ d.hospital = b.hospital ∧
      d.location = b.location ∧ d.experience = b.experience ∧
      d.consultationFee = b.consultationFee ∧ d.availability = b.availability ∧
      d.bio = b.bio ∧ d.education = b.education ∧ d.certifications = b.certifications ∧
      d.languages = b.languages ∧
      (∀ i, b.image = some i → d.image = some i) ∧
      (b.image = none → d.image = some cfg.imageDefault) ∧
      User.findById (postCreate cfg s b).2.users userId =
        some { u with
          isDoctor := true
          cimage := if truthyStr b.image then b.image else u.cimage } ∧
      (∀ v, v ≠ userId →
        User.findById (postCreate cfg s b).2.users v = User.findById s.users v) := by
  refine ⟨Doctor.construct cfg s.nextId (createInit userId b), ?_⟩
  have hsave := User.save_lookup s.users userId u
    (if truthyStr b.image = true then
      { u with isDoctor := true, cimage := b.image }
     else { u with isDoctor := true }) hu (by split <;> rfl)
  have hstate : (postCreate cfg s b).2.users =
      User.save s.users
        (if truthyStr b.image = true then
          { u with isDoctor := true, cimage := b.image }
         else { u with isDoctor := true }) := by
    simp [postCreate, hb, hu, hno, Doctor.insert]
  refine ⟨?_, ?_, ?_, ?_, rfl, rfl, rfl, rfl, rfl, rfl, rfl, rfl, rfl, rfl, rfl, rfl, ?_, ?_,
    ?_, ?_⟩
  · simp [postCreate, hb, hu, hno]
  · simp [postCreate, hb, hu, hno]
  · simp [postCreate, hb, hu, hno]
  · simp [postCreate, hb, hu, hno, Doctor.insert]
  · intro i hi
    simp [Doctor.construct, createInit, hi]
  · intro hi
    simp [Doctor.construct, createInit, hi]
  · rw [hstate, hsave.1]
    split <;> rfl
  · intro v hv
    rw [hstate]
    exact hsave.2 v hv

theorem postCreate_success_witness :
    User.findById sampleEmpty.users 2 = some samplePatient ∧
    Doctor.findOne sampleEmpty.doctors 2 = none ∧
    ∃ d : Doctor,
      (postCreate sampleSchema sampleEmpty
        { userId := some 2, name := some "N. Silva", experience := some 5 }).1.status = 201 ∧
      (postCreate sampleSchema sampleEmpty
        { userId := some 2, name := some "N. Silva", experience := some 5 }).2.doctors =
        sampleEmpty.doctors ++ [d] ∧
      d.name = some "N. Silva" ∧
      User.findById (postCreate sampleSchema sampleEmpty
        { userId := some 2, name := some "N. Silva", experience := some 5 }).2.users 2 =
        some { samplePatient with isDoctor := true } := by
  refine ⟨rfl, rfl, ?_⟩
  obtain ⟨d, h1, -, -, h4, -, h6, -, -, -, -, -, -, -, -, -, -, -, -, h19, -⟩ :=
    postCreate_success sampleSchema sampleEmpty
      { userId := some 2, name := some "N. Silva", experience := some 5 } 2 samplePatient
      rfl rfl rfl
  exact ⟨d, h1, h4, h6, h19⟩

/-! ## Delete -/

/-- C3. When a Doctor `d` is stored under `id` (identifiers being unique in the
collection), `DELETE /:id` answers 200 with `success` true and no Doctor with
that id remains, every other id resolving as before; if the User linked by
`d.userId` exists, it is afterwards the same User with `isDoctor` false and
every other user id resolves as before; if it does not exist, the User
collection is unchanged. -/
theorem deleteById_existing (s : State) (id : DoctorId) (d : Doctor)
    (hd : Doctor.findById s.doctors id = some d) (huniq : UniqueId s.doctors) :
    (deleteById s id).1.status = 200 ∧
    (deleteById s id).1.success = true ∧
    (∀ x ∈ (deleteById s id).2.doctors, x._id ≠ id) ∧
    Doctor.findById (deleteById s id).2.doctors id = none ∧
    (∀ j, j ≠ id →
      Doctor.findById (deleteById s id).2.doctors j = Doctor.findById s.doctors j) ∧
    (∀ u, User.findById s.users d.userId = some u →
      User.findById (deleteById s id).2.users d.userId = some { u with isDoctor := false } ∧
      (deleteById s id).2.users.length = s.users.length ∧
      ∀ v, v ≠ d.userId →
        User.findById (deleteById s id).2.users v = User.findById s.users v) ∧
    (User.findById s.users d.userId = none → (deleteById s id).2.users = s.users) := by
  have hgone : ∀ x ∈ Doctor.findByIdAndDelete s.doctors id, x._id ≠ id :=
    removeFirst_key_gone id s.doctors huniq
  have hdocs : (deleteById s id).2.doctors = Doctor.findByIdAndDelete s.doctors id := by
    simp [deleteById, hd]
  refine ⟨?_, ?_, ?_, ?_, ?_, ?_, ?_⟩
  · simp [deleteById, hd]
  · simp [deleteById, hd]
  · rw [hdocs]; exact hgone
  · rw [hdocs]
    unfold Doctor.findById
    rw [List.find?_eq_none]
    intro x hx
    simpa using hgone x hx
  · intro j hj
    rw [hdocs]
    unfold Doctor.findById Doctor.findByIdAndDelete
    apply find?_removeFirst_other
    intro y hy
    simp at hy
    simp [hy]
    exact fun a => hj a.symm
  · intro u hu
    have hsave := User.save_lookup s.users d.userId u { u with isDoctor := false } hu rfl
    have husers : (deleteById s id).2.users = User.save s.users { u with isDoctor := false } := by
      simp [deleteById, hd, hu]
    rw [husers]
    exact ⟨hsave.1, replaceFirst_length _ _ _, hsave.2⟩
  · intro hu
    simp [deleteById, hd, hu]

theorem deleteById_existing_witness :
    Doctor.findById sampleLinked.doctors 7 = some sampleDoctor ∧
    UniqueId sampleLinked.doctors ∧
    (deleteById sampleLinked 7).1.status = 200 ∧
    Doctor.findById (deleteById sampleLinked 7).2.doctors 7 = none ∧
    User.findById (deleteById sampleLinked 7).2.users 1 =
      some { sampleUser with isDoctor := false } ∧
    (deleteById sampleOrphan 7).1.status = 200 ∧
    (deleteById sampleOrphan 7).2.users = sampleOrphan.users :=
  have h := deleteById_existing sampleLinked 7 sampleDoctor rfl (by decide)
  have k := deleteById_existing sampleOrphan 7 sampleDoctor rfl (by decide)
  ⟨rfl, by decide, h.1, h.2.2.2.1, (h.2.2.2.2.2.1 sampleUser rfl).1, k.1, k.2.2.2.2.2.2 rfl⟩

/-! ## Update -/

theorem keepsOrTakes_str (body old : Option String) :
    KeepsOrTakes (fun v => v ≠ "") body old (if truthyStr body then body else old) := by
  unfold KeepsOrTakes
  constructor
  · intro v hv ht
    subst hv
    simp [truthyStr, ht]
  · intro h
    rcases h with h | ⟨v, hv, ht⟩
    · subst h; simp [truthyStr]
    · subst hv
      simp at ht
      simp [truthyStr, ht]

theorem keepsOrTakes_num (body old : Option Int) :
    KeepsOrTakes (fun v => v ≠ 0) body old (if truthyNum body then body else old) := by
  unfold KeepsOrTakes
  constructor
  · intro v hv ht
    subst hv
    simp [truthyNum, ht]
  · intro h
    rcases h with h | ⟨v, hv, ht⟩
    · subst h; simp [truthyNum]
    · subst hv
      simp at ht
      simp [truthyNum, ht]

theorem keepsOrTakes_arr {α : Type} (body old : Option (List α)) :
    KeepsOrTakes (fun _ => True) body old (if truthyArr body then body else old) := by
  unfold KeepsOrTakes
  constructor
  · intro v hv _
    subst hv
    simp [truthyArr]
  · intro h
    rcases h with h | ⟨v, _, ht⟩
    · subst h; simp [truthyArr]
    · exact absurd trivial ht

theorem applyUpdate_empty (d : Doctor) : applyUpdate d {} = d := by
  cases d
  rfl

/-- C4. When a Doctor `d` is stored under `id`, `PUT /:id` answers 200 with the
updated Doctor `d1`, which is what the collection then holds under `id`; each
of the twelve recognized fields of `d1` is the body's value when that is
present and truthy (non-empty string, non-zero number, any array) and the value
in `d` otherwise; `_id` and `userId` are those of `d`; with an empty body
`d1 = d` and the whole state, User collection included, is unchanged. -/
theorem putById_existing (s : State) (id : DoctorId) (b : UpdateBody) (d : Doctor)
    (hd : Doctor.findById s.doctors id = some d) :
    ∃ d1 : Doctor,
      (putById s id b).1.status = 200 ∧
      (putById s id b).1.data = .one (rawRep d1) ∧
      Doctor.findById (putById s id b).2.doctors id = some d1 ∧
      d1._id = d._id ∧ d1.userId = d.userId ∧
      KeepsOrTakes (fun v => v ≠ "") b.name d.name d1.name ∧
      KeepsOrTakes (fun v => v ≠ "") b.specialization d.specialization d1.specialization ∧
      KeepsOrTakes (fun v => v ≠ "") b.hospital d.hospital d1.hospital ∧
      KeepsOrTakes (fun v => v ≠ "") b.location d.location d1.location ∧
      KeepsOrTakes (fun v => v ≠ 0) b.experience d.experience d1.experience ∧
      KeepsOrTakes (fun v => v ≠ 0) b.consultationFee d.consultationFee d1.consultationFee ∧
      KeepsOrTakes (fun _ => True) b.availability d.availability d1.availability ∧
      KeepsOrTakes (fun v => v ≠ "") b.bio d.bio d1.bio ∧
      KeepsOrTakes (fun _ => True) b.education d.education d1.education ∧
      KeepsOrTakes (fun _ => True) b.certifications d.certifications d1.certifications ∧
      KeepsOrTakes (fun _ => True) b.languages d.languages d1.languages ∧
      KeepsOrTakes (fun v => v ≠ "") b.image d.image d1.image ∧
      (b = {} → d1 = d ∧ (putById s id b).2 = s) := by
  have hid : d._id = id := doctorFound_id _ _ _ hd
  have hfind : Doctor.findById (Doctor.save s.doctors (applyUpdate d b)) id =
      some (applyUpdate d b) := by
    unfold Doctor.findById Doctor.save at *
    have e : (applyUpdate d b)._id = id := hid
    rw [e]
    exact find?_replaceFirst_same _ _ d s.doctors hd (by simp [e])
  refine ⟨applyUpdate d b, ?_, ?_, ?_, rfl, rfl, keepsOrTakes_str _ _, keepsOrTakes_str _ _,
    keepsOrTakes_str _ _, keepsOrTakes_str _ _, keepsOrTakes_num _ _, keepsOrTakes_num _ _,
    keepsOrTakes_arr _ _, keepsOrTakes_str _ _, keepsOrTakes_arr _ _, keepsOrTakes_arr _ _,
    keepsOrTakes_arr _ _, keepsOrTakes_str _ _, ?_⟩
  · simp [putById, hd]
  · simp [putById, hd]
  · simp only [putById, hd]
    exact hfind
  · intro hb
    subst hb
    refine ⟨applyUpdate_empty d, ?_⟩
    have hsave : Doctor.save s.doctors d = s.doctors := by
      unfold Doctor.save
      apply replaceFirst_found_self
      rw [hid]
      exact hd
    simp only [putById, hd, applyUpdate_empty, hsave]
    rfl

theorem putById_existing_witness :
    Doctor.findById sampleLinked.doctors 7 = some sampleDoctor ∧
    ∃ d1 : Doctor,
      (putById sampleLinked 7 sampleUpdate).1.status = 200 ∧
      Doctor.findById (putById sampleLinked 7 sampleUpdate).2.doctors 7 = some d1 ∧
      d1.name = some "A. Perera" ∧ d1.experience = some 5 ∧ d1.bio = some "New bio" ∧
      d1.languages = some [] ∧ d1.hospital = some "General Hospital" := by
  refine ⟨rfl, ?_⟩
  obtain ⟨d1, h1, -, h3, -, -, hname, -, hhosp, -, hexp, -, -, hbio, -, -, hlang, -, -⟩ :=
    putById_existing sampleLinked 7 sampleUpdate sampleDoctor rfl
  exact ⟨d1, h1, h3, hname.2 (Or.inr ⟨"", rfl, by simp⟩), hexp.2 (Or.inr ⟨0, rfl, by simp⟩),
    hbio.1 "New bio" rfl (by decide), hlang.1 [] rfl trivial, hhosp.2 (Or.inl rfl)⟩

/-! ## Search and list -/

theorem matchesKey_buildQuery (param stored : Option String) :
    matchesKey (if truthyStr param then param else none) stored = suppliedEq param stored := by
  cases param with
  | none => rfl
  | some v =>
    by_cases hv : v = ""
    · subst hv
      simp [truthyStr, matchesKey, suppliedEq]
    · simp [truthyStr, matchesKey, suppliedEq, hv]

theorem buildQuery_matches (p : SearchParams) :
    (buildQuery p).matches = specFilter p := by
  funext d
  simp only [DoctorQuery.matches, buildQuery, specFilter, matchesKey_buildQuery]

/-- C5. `GET /search` answers 200 with exactly the stored Doctors, in store
order and expanded, that equal the supplied value on every supplied non-empty
parameter; with no query parameter it returns the same data as `GET /all`,
which is every stored Doctor; neither handler changes the state. -/
theorem getSearch_spec (s : State) (p : SearchParams) :
    (getSearch s p).1.status = 200 ∧
    (getSearch s p).2 = s ∧
    (getSearch s p).1.data = .many ((s.doctors.filter (specFilter p)).map (populate s.users)) ∧
    (getSearch s {}).1.status = 200 ∧
    (getSearch s {}).1.data = (getAll s).1.data ∧
    (getAll s).1.status = 200 ∧
    (getAll s).1.data = .many (s.doctors.map (populate s.users)) ∧
    (getAll s).2 = s := by
  have hall : Doctor.find s.doctors {} = s.doctors := by
    unfold Doctor.find
    apply List.filter_eq_self.mpr
    intro d _
    rfl
  have hnone : Doctor.find s.doctors (buildQuery {}) = s.doctors := hall
  refine ⟨rfl, rfl, ?_, rfl, ?_, rfl, ?_, rfl⟩
  · simp only [getSearch, Doctor.find, buildQuery_matches]
  · simp only [getSearch, getAll, hnone, hall]
  · simp only [getAll, hall]

/-! ## At most one Doctor per user -/

theorem uniqueUser_append_new (doctors : List Doctor) (d : Doctor)
    (h : UniqueUser doctors) (hno : Doctor.findOne doctors d.userId = none) :
    UniqueUser (doctors ++ [d]) := by
  unfold UniqueUser at *
  rw [Doctor.findOne_none_iff] at hno
  rw [List.map_append, List.nodup_append]
  refine ⟨h, by simp, ?_⟩
  intro a ha hb
  simp at hb
  subst hb
  exact hno ha

theorem uniqueUser_getUser (cfg : Schema) (s : State) (userId : UserId)
    (h : UniqueUser s.doctors) : UniqueUser (getUser cfg s userId).2.doctors := by
  cases h1 : Doctor.findOne s.doctors userId with
  | some d => simpa [getUser, h1] using h
  | none =>
    cases h2 : User.findById s.users userId with
    | none => simpa [getUser, h1, h2] using h
    | some u =>
      cases h3 : u.isDoctor with
      | false => simpa [getUser, h1, h2, h3] using h
      | true =>
        have hid : u._id = userId := userFound_id _ _ _ h2
        have hst : (getUser cfg s userId).2.doctors =
            s.doctors ++ [Doctor.construct cfg s.nextId (provisionInit u)] := by
          simp [getUser, h1, h2, h3, Doctor.insert]
        rw [hst]
        apply uniqueUser_append_new _ _ h
        have e : (Doctor.construct cfg s.nextId (provisionInit u)).userId = userId := hid
        rw [e]
        exact h1

theorem uniqueUser_postCreate (cfg : Schema) (s : State) (b : CreateBody)
    (h : UniqueUser s.doctors) : UniqueUser (postCreate cfg s b).2.doctors := by
  cases h0 : b.userId with
  | none => simpa [postCreate, h0] using h
  | some uid =>
    cases h1 : User.findById s.users uid with
    | none => simpa [postCreate, h0, h1] using h
    | some u =>
      cases h2 : Doctor.findOne s.doctors uid with
      | some d => simpa [postCreate, h0, h1, h2] using h
      | none =>
        have hst : (postCreate cfg s b).2.doctors =
            s.doctors ++ [Doctor.construct cfg s.nextId (createInit uid b)] := by
          simp [postCreate, h0, h1, h2, Doctor.insert]
        rw [hst]
        apply uniqueUser_append_new _ _ h
        exact h2

theorem uniqueUser_putById (s : State) (id : DoctorId) (b : UpdateBody)
    (h : UniqueUser s.doctors) : UniqueUser (putById s id b).2.doctors := by
  cases h1 : Doctor.findById s.doctors id with
  | none => simpa [putById, h1] using h
  | some d =>
    have hid : d._id = id := doctorFound_id _ _ _ h1
    have hmap : (Doctor.save s.doctors (applyUpdate d b)).map (fun x => x.userId) =
        s.doctors.map (fun x => x.userId) := by
      unfold Doctor.save
      apply map_replaceFirst _ _ _ d
      · have e : (applyUpdate d b)._id = id := hid
        rw [e]
        exact h1
      · rfl
    have hst : (putById s id b).2.doctors = Doctor.save s.doctors (applyUpdate d b) := by
      simp [putById, h1]
    unfold UniqueUser at *
    rw [hst, hmap]
    exact h

theorem uniqueUser_deleteById (s : State) (id : DoctorId)
    (h : UniqueUser s.doctors) : UniqueUser (deleteById s id).2.doctors := by
  cases h1 : Doctor.findById s.doctors id with
  | none => simpa [deleteById, h1] using h
  | some d =>
    have hst : (deleteById s id).2.doctors = Doctor.findByIdAndDelete s.doctors id := by
      simp [deleteById, h1]
    unfold UniqueUser at *
    rw [hst]
    exact List.Nodup.sublist (List.Sublist.map _ (removeFirst_sublist _ _)) h

theorem uniqueUser_step (cfg : Schema) (s : State) (r : Request)
    (h : UniqueUser s.doctors) : UniqueUser (step cfg s r).2.doctors := by
  cases r with
  | getAll => exact h
  | getSearch p => exact h
  | getUser userId => exact uniqueUser_getUser cfg s userId h
  | postCreate b => exact uniqueUser_postCreate cfg s b h
  | getById id =>
    simp only [step, getById]
    cases Doctor.findById s.doctors id <;> exact h
  | putById id b => exact uniqueUser_putById s id b h
  | deleteById id => exact uniqueUser_deleteById s id h

theorem uniqueUser_run (cfg : Schema) (reqs : List Request) :
    ∀ s : State, UniqueUser s.doctors → UniqueUser (run cfg s reqs).doctors := by
  induction reqs with
  | nil => intro s h; exact h
  | cons r rs ih =>
    intro s h
    exact ih _ (uniqueUser_step cfg s r h)

/-- C10. Each of the seven handlers, taken as one atomic step, keeps "no two
Doctors share a userId"; so does every sequence of requests; hence every state
reached from an empty Doctor collection, whatever the User collection, has at
most one Doctor per userId. -/
theorem uniqueUser_invariant (cfg : Schema) (s : State) (r : Request) (reqs : List Request)
    (h : UniqueUser s.doctors) :
    UniqueUser (step cfg s r).2.doctors ∧
    UniqueUser (run cfg s reqs).doctors ∧
    ∀ (users : List User) (nextId : DoctorId),
      UniqueUser (run cfg { doctors := [], users := users, nextId := nextId } reqs).doctors :=
  ⟨uniqueUser_step cfg s r h, uniqueUser_run cfg reqs s h,
    fun _ _ => uniqueUser_run cfg reqs _ List.nodup_nil⟩

theorem uniqueUser_invariant_witness :
    UniqueUser sampleLinked.doctors ∧
    UniqueUser (step sampleSchema sampleLinked (.getUser 1)).2.doctors ∧
    UniqueUser (run sampleSchema sampleLinked sampleRequests).doctors ∧
    ∀ (users : List User) (nextId : DoctorId),
      UniqueUser (run sampleSchema { doctors := [], users := users, nextId := nextId }
        sampleRequests).doctors :=
  ⟨by decide, uniqueUser_invariant sampleSchema sampleLinked (.getUser 1) sampleRequests
    (by decide)⟩

/-! ## Identifiers stay unique -/

theorem wellFormed_insert (s : State) (d : Doctor) (h : WellFormed s) (hd : d._id = s.nextId) :
    WellFormed (Doctor.insert s d) := by
  unfold WellFormed UniqueId Doctor.insert at *
  obtain ⟨h1, h2⟩ := h
  constructor
  · simp only
    rw [List.map_append, List.nodup_append]
    refine ⟨h1, by simp, ?_⟩
    intro a ha hb
    simp only [List.map_cons, List.map_nil, List.mem_singleton] at hb
    have hlt : a < s.nextId := h2 a ha
    rw [hb, hd] at hlt
    exact Nat.lt_irrefl _ hlt
  · intro i hi
    simp only [List.map_append, List.mem_append, List.map_cons, List.map_nil,
      List.mem_singleton] at hi
    rcases hi with hi | hi
    · exact Nat.lt_succ_of_lt (h2 i hi)
    · rw [hi, hd]
      exact Nat.lt_succ_self _

theorem wellFormed_step (cfg : Schema) (s : State) (r : Request) (h : WellFormed s) :
    WellFormed (step cfg s r).2 := by
  cases r with
  | getAll => exact h
  | getSearch p => exact h
  | getById id =>
    simp only [step, getById]
    cases Doctor.findById s.doctors id <;> exact h
  | getUser userId =>
    simp only [step]
    cases h1 : Doctor.findOne s.doctors userId with
    | some d => simpa [getUser, h1] using h
    | none =>
      cases h2 : User.findById s.users userId with
      | none => simpa [getUser, h1, h2] using h
      | some u =>
        cases h3 : u.isDoctor with
        | false => simpa [getUser, h1, h2, h3] using h
        | true =>
          have hst : (getUser cfg s userId).2 =
              Doctor.insert s (Doctor.construct cfg s.nextId (provisionInit u)) := by
            simp [getUser, h1, h2, h3]
          rw [hst]
          exact wellFormed_insert s _ h rfl
  | postCreate b =>
    simp only [step]
    cases h0 : b.userId with
    | none => simpa [postCreate, h0] using h
    | some uid =>
      cases h1 : User.findById s.users uid with
      | none => simpa [postCreate, h0, h1] using h
      | some u =>
        cases h2 : Doctor.findOne s.doctors uid with
        | some d => simpa [postCreate, h0, h1, h2] using h
        | none =>
          have hw := wellFormed_insert s (Doctor.construct cfg s.nextId (createInit uid b)) h rfl
          have hst : (postCreate cfg s b).2.doctors =
              (Doctor.insert s (Doctor.construct cfg s.nextId (createInit uid b))).doctors ∧
              (postCreate cfg s b).2.nextId =
              (Doctor.insert s (Doctor.construct cfg s.nextId (createInit uid b))).nextId := by
            simp [postCreate, h0, h1, h2]
          unfold WellFormed at *
          rw [hst.1, hst.2]
          exact hw
  | putById id b =>
    simp only [step]
    cases h1 : Doctor.findById s.doctors id with
    | none => simpa [putById, h1] using h
    | some d =>
      have hid : d._id = id := doctorFound_id _ _ _ h1
      have hmap : (Doctor.save s.doctors (applyUpdate d b)).map (fun x => x._id) =
          s.doctors.map (fun x => x._id) := by
        unfold Doctor.save
        apply map_replaceFirst _ _ _ d
        · have e : (applyUpdate d b)._id = id := hid
          rw [e]
          exact h1
        · rfl
      have hst : (putById s id b).2.doctors = Doctor.save s.doctors (applyUpdate d b) ∧
          (putById s id b).2.nextId = s.nextId := by
        simp [putById, h1]
      unfold WellFormed UniqueId at *
      rw [hst.1, hst.2, hmap]
      exact h
  | deleteById id =>
    simp only [step]
    cases h1 : Doctor.findById s.doctors id with
    | none => simpa [deleteById, h1] using h
    | some d =>
      have hst : (deleteById s id).2.doctors = Doctor.findByIdAndDelete s.doctors id ∧
          (deleteById s id).2.nextId = s.nextId := by
        simp [deleteById, h1]
      have hsub : List.Sublist ((Doctor.findByIdAndDelete s.doctors id).map (fun x => x._id))
          (s.doctors.map (fun x => x._id)) :=
        List.Sublist.map _ (removeFirst_sublist _ _)
      unfold WellFormed UniqueId at *
      rw [hst.1, hst.2]
      exact ⟨List.Nodup.sublist hsub h.1, fun i hi => h.2 i (hsub.subset hi)⟩

/-- Every state reached from an empty Doctor collection has pairwise distinct
Doctor identifiers. -/
theorem uniqueId_run (cfg : Schema) (reqs : List Request) (users : List User)
    (nextId : DoctorId) :
    UniqueId (run cfg { doctors := [], users := users, nextId := nextId } reqs).doctors := by
  have key : ∀ (rs : List Request) (s : State), WellFormed s → WellFormed (run cfg s rs) := by
    intro rs
    induction rs with
    | nil => intro s h; exact h
    | cons r rs ih => intro s h; exact ih _ (wellFormed_step cfg s r h)
  have h0 : WellFormed { doctors := [], users := users, nextId := nextId } := by
    constructor
    · exact List.nodup_nil
    · intro i hi
      simp at hi
  exact (key reqs _ h0).1

end MediHome
